import Mathlib

/-!
Verification of the termisu C ABI boundary (include/termisu/ffi.h and its
conformance test tests/c/ffi_test.c).

Part 1 models the C struct layout rules (natural alignment, as both the
header's static asserts and the test's offsetof checks require) and the
four shared structs transcribed field-by-field from ffi.h.

Part 2 models the runtime contract of the FFI boundary (handle registry,
error channel, session operations, event poll).  The implementations of
these functions are not part of this repository checkout (only the header
declarations, a C conformance test and an example are), so the runtime
model is built from the specification, with the relative order of the
null-out-pointer check and the handle check pinned by the repository's own
test (ffi_test.c asserts poll_event(0, 0, NULL) == INVALID_ARGUMENT).
-/

namespace Termisu

/-- A C struct field: its name, the size in bytes of its type, and the
alignment requirement of its type, transcribed from ffi.h. -/
structure CField where
  name : String
  size : Nat
  align : Nat
deriving DecidableEq, Repr

/-- Round `off` up to the next multiple of `a` (C padding rule). -/
def alignUp (off a : Nat) : Nat := ((off + a - 1) / a) * a

/-- Offsets assigned to the fields of a C struct, in declaration order:
each field is placed at the current offset rounded up to its alignment. -/
def fieldOffsets (fs : List CField) : List (String × Nat) :=
  (fs.foldl
    (fun (acc : List (String × Nat) × Nat) f =>
      let off := alignUp acc.2 f.align
      ((f.name, off) :: acc.1, off + f.size))
    ([], 0)).1.reverse

/-- Alignment of a C struct: the maximum alignment of its fields. -/
def structAlign (fs : List CField) : Nat :=
  fs.foldl (fun a f => max a f.align) 1

/-- Offset one past the last byte of the last field. -/
def structEnd (fs : List CField) : Nat :=
  fs.foldl (fun off f => alignUp off f.align + f.size) 0

/-- sizeof of a C struct: the end offset padded up to the struct alignment. -/
def sizeofStruct (fs : List CField) : Nat :=
  alignUp (structEnd fs) (structAlign fs)

/-- offsetof: the byte offset of the named field. -/
def offsetofField (fs : List CField) (n : String) : Option Nat :=
  (fieldOffsets fs).lookup n

/-- termisu_color_t from ffi.h: uint8_t mode; uint8_t reserved[3];
int32_t index; uint8_t r; uint8_t g; uint8_t b. -/
def termisu_color_t : List CField :=
  [⟨"mode", 1, 1⟩, ⟨"reserved", 3, 1⟩, ⟨"index", 4, 4⟩,
   ⟨"r", 1, 1⟩, ⟨"g", 1, 1⟩, ⟨"b", 1, 1⟩]

/-- termisu_cell_style_t from ffi.h: termisu_color_t fg; termisu_color_t bg;
uint16_t attr. -/
def termisu_cell_style_t : List CField :=
  [⟨"fg", sizeofStruct termisu_color_t, structAlign termisu_color_t⟩,
   ⟨"bg", sizeofStruct termisu_color_t, structAlign termisu_color_t⟩,
   ⟨"attr", 2, 2⟩]

/-- termisu_size_t from ffi.h: int32_t width; int32_t height. -/
def termisu_size_t : List CField :=
  [⟨"width", 4, 4⟩, ⟨"height", 4, 4⟩]

/-- termisu_event_t from ffi.h, all 21 fields in declaration order. -/
def termisu_event_t : List CField :=
  [⟨"event_type", 1, 1⟩, ⟨"modifiers", 1, 1⟩, ⟨"reserved", 2, 2⟩,
   ⟨"key_code", 4, 4⟩, ⟨"key_char", 4, 4⟩,
   ⟨"mouse_x", 4, 4⟩, ⟨"mouse_y", 4, 4⟩, ⟨"mouse_button", 4, 4⟩,
   ⟨"mouse_motion", 1, 1⟩,
   ⟨"resize_width", 4, 4⟩, ⟨"resize_height", 4, 4⟩,
   ⟨"resize_old_width", 4, 4⟩, ⟨"resize_old_height", 4, 4⟩,
   ⟨"resize_has_old", 1, 1⟩,
   ⟨"tick_frame", 8, 8⟩, ⟨"tick_elapsed_ns", 8, 8⟩,
   ⟨"tick_delta_ns", 8, 8⟩, ⟨"tick_missed_ticks", 8, 8⟩,
   ⟨"mode_current", 4, 4⟩, ⟨"mode_previous", 4, 4⟩,
   ⟨"mode_has_previous", 1, 1⟩]

end Termisu

namespace Termisu

/-- Status codes from the termisu_status enum in ffi.h. -/
inductive Status where
  | ok
  | timeout
  | invalidArgument
  | invalidHandle
  | rejected
  | error
deriving DecidableEq, Repr

/-- The stable numeric value of each status code (ffi.h lines 21–28). -/
def Status.code : Status → Nat
  | .ok => 0
  | .timeout => 1
  | .invalidArgument => 2
  | .invalidHandle => 3
  | .rejected => 4
  | .error => 5

/-- A termisu_color_t value (the payload, not the layout). -/
structure ColorRec where
  mode : Nat
  index : Int
  r : Nat
  g : Nat
  b : Nat
deriving DecidableEq, Repr

/-- A termisu_cell_style_t value. -/
structure CellStyleRec where
  fg : ColorRec
  bg : ColorRec
  attr : Nat
deriving DecidableEq, Repr

/-- A termisu_size_t value. -/
structure SizeRec where
  width : Int
  height : Int
deriving DecidableEq, Repr

/-- A termisu_event_t value: the flattened tagged union of ffi.h. -/
structure EventRec where
  event_type : Nat
  modifiers : Nat
  key_code : Int
  key_char : Int
  mouse_x : Int
  mouse_y : Int
  mouse_button : Int
  mouse_motion : Nat
  resize_width : Int
  resize_height : Int
  resize_old_width : Int
  resize_old_height : Int
  resize_has_old : Nat
  tick_frame : Nat
  tick_elapsed_ns : Int
  tick_delta_ns : Int
  tick_missed_ticks : Nat
  mode_current : Nat
  mode_previous : Nat
  mode_has_previous : Nat
deriving DecidableEq, Repr

/-- Modelled from the spec: the outcome the host-language engine (a black
box at this boundary, not present in this checkout) reports for one
delegated action; a Rejected or failed outcome carries the engine's
diagnostic message. -/
inductive HostOutcome where
  | ok
  | rejected (msg : String)
  | failed (msg : String)
deriving DecidableEq, Repr

/-- Modelled from the spec: the outcome of one blocking wait on the
session's event source — an event arrived, the timeout elapsed, or the
host engine failed with a diagnostic message. -/
inductive PollOutcome where
  | event (e : EventRec)
  | timeout
  | failed (msg : String)
deriving DecidableEq, Repr

/-- Modelled from the spec: the process-wide boundary state — the handle
registry (handles ever issued, handles destroyed, next fresh handle id)
plus the per-session synchronized-updates flags and the process-wide
pending last-error message (empty string = no message pending).  The
implementation of the registry is not in this checkout; the model follows
§3–§4 of the spec: handles are issued from an increasing counter starting
at 1 (so 0 is never issued) and a destroyed handle is recorded forever. -/
structure FFIState where
  nextId : Nat
  issued : List Nat
  destroyed : List Nat
  sync : List (Nat × Bool)
  lastError : String
deriving DecidableEq, Repr

/-- The state before any call: no handle issued, no error pending. -/
def initState : FFIState := ⟨1, [], [], [], ""⟩

/-- Handle validation (spec §4.3): a handle validates iff it was issued
and has not been destroyed (a zero handle was never issued). -/
def valid (st : FFIState) (h : Nat) : Bool :=
  decide (h ∈ st.issued) && decide (h ∉ st.destroyed)

/-- Overwrite (never append) the pending error message (spec §4.2). -/
def setErr (st : FFIState) (m : String) : FFIState :=
  { st with lastError := m }

/-- The session's synchronized-updates flag (most recent setting wins). -/
def syncFlag (st : FFIState) (h : Nat) : Bool :=
  (st.sync.lookup h).getD false

/-- Registry well-formedness: the next id is positive, every issued handle
is positive and below the next id, and destroyed handles were issued. -/
def Wf (st : FFIState) : Prop :=
  0 < st.nextId ∧
  (∀ h ∈ st.issued, 0 < h ∧ h < st.nextId) ∧
  (∀ h ∈ st.destroyed, h ∈ st.issued)

instance (st : FFIState) : Decidable (Wf st) := by
  unfold Wf; infer_instance

/-- The handle-taking operation surface of ffi.h (lines 165–191); the
out-pointer of termisu_size and termisu_poll_event is modelled by a
Boolean that is true when the caller passed NULL. -/
inductive Op where
  | destroy
  | close
  | size (outNull : Bool)
  | setSyncUpdates (enabled : Bool)
  | clear
  | render
  | sync
  | setCursor (x y : Int)
  | hideCursor
  | showCursor
  | setCell (x y : Int) (codepoint : Nat) (style : CellStyleRec)
  | enableTimerMs (intervalMs : Int)
  | enableSystemTimerMs (intervalMs : Int)
  | disableTimer
  | enableMouse
  | disableMouse
  | enableEnhancedKeyboard
  | disableEnhancedKeyboard
  | pollEvent (timeoutMs : Int) (outNull : Bool)
deriving DecidableEq, Repr

/-- The name of the operation's pointer-typed out-parameter, if it has
one (ffi.h: termisu_size takes out_size, termisu_poll_event out_event). -/
def Op.outName : Op → Option String
  | .size _ => some "out_size"
  | .pollEvent _ _ => some "out_event"
  | _ => none

/-- True when the caller passed NULL for the out-parameter. -/
def Op.nullOut : Op → Bool
  | .size b => b
  | .pollEvent _ b => b
  | _ => false

/-- The diagnostic for a NULL out-parameter, "<name> is null" (the name
taken from the declaration in ffi.h); ops without an out-parameter never
reach this message. -/
def Op.nullMsg : Op → String
  | .size _ => "out_size is null"
  | .pollEvent _ _ => "out_event is null"
  | _ => ""

/-- Data written through an out-pointer on success. -/
inductive OutData where
  | size (sz : SizeRec)
  | event (e : EventRec)
deriving DecidableEq, Repr

/-- The result of one handle-taking call: the returned status code, the
boundary state after the call, and what (if anything) was written through
the out-pointer. -/
structure StepResult where
  status : Status
  state : FFIState
  output : Option OutData
deriving DecidableEq, Repr

/-- Modelled from the spec: one handle-taking call on the boundary
(the C implementations of ffi.h lines 165–191 are not in this checkout).
Per §4.2–§4.5 and §7: a NULL out-pointer is rejected first with
Invalid-Argument and the message "<name> is null" (the repository's own
test pins this order: ffi_test.c asserts poll_event(0, 0, NULL) returns
INVALID_ARGUMENT, not INVALID_HANDLE); then the handle is validated,
an invalid handle short-circuiting with Invalid-Handle and the message
"Invalid handle" without touching registry state or out-parameters;
then the action runs — destroy/close revoke the handle, set_sync_updates
records the flag, poll_event consults the session's event source (Timeout
leaves the error channel alone), and the remaining actions are delegated
to the host engine whose Rejected/failed outcomes carry its message. -/
def step (h : Nat) (op : Op) (host : HostOutcome) (hsz : SizeRec)
    (hpoll : PollOutcome) (st : FFIState) : StepResult :=
  if op.nullOut then ⟨.invalidArgument, setErr st op.nullMsg, none⟩
  else
    if valid st h then
      match op with
      | .destroy => ⟨.ok, { st with destroyed := h :: st.destroyed }, none⟩
      | .close => ⟨.ok, { st with destroyed := h :: st.destroyed }, none⟩
      | .size _ =>
        match host with
        | .ok => ⟨.ok, st, some (.size hsz)⟩
        | .rejected m => ⟨.rejected, setErr st m, none⟩
        | .failed m => ⟨.error, setErr st m, none⟩
      | .setSyncUpdates b =>
        match host with
        | .ok => ⟨.ok, { st with sync := (h, b) :: st.sync }, none⟩
        | .rejected m => ⟨.rejected, setErr st m, none⟩
        | .failed m => ⟨.error, setErr st m, none⟩
      | .pollEvent _ _ =>
        match hpoll with
        | .event e => ⟨.ok, st, some (.event e)⟩
        | .timeout => ⟨.timeout, st, none⟩
        | .failed m => ⟨.error, setErr st m, none⟩
      | _ =>
        match host with
        | .ok => ⟨.ok, st, none⟩
        | .rejected m => ⟨.rejected, setErr st m, none⟩
        | .failed m => ⟨.error, setErr st m, none⟩
    else ⟨.invalidHandle, setErr st "Invalid handle", none⟩

/-- Modelled from the spec (§4.3 create): on host success, binds a fresh
handle (the next counter value, not currently in use) to a new session
with the given synchronized-updates setting and returns it; on host
failure returns 0 and populates the error channel with the host's
message.  The pending error is not touched on success. -/
def termisu_create (syncOn : Bool) (hostOk : Bool) (hostMsg : String)
    (st : FFIState) : Nat × FFIState :=
  if hostOk then
    (st.nextId,
     { st with
        nextId := st.nextId + 1
        issued := st.nextId :: st.issued
        sync := (st.nextId, syncOn) :: st.sync })
  else (0, setErr st hostMsg)

/-- Modelled from the spec: the synchronized-updates getter of ffi.h
(uint8_t termisu_sync_updates), returning 1 when the session's flag is
set and 0 otherwise (0 for an invalid handle). -/
def termisu_sync_updates (h : Nat) (st : FFIState) : Nat :=
  if valid st h then (if syncFlag st h then 1 else 0) else 0

/-- UTF-8 encoding of one scalar value, byte by byte. -/
def utf8Bytes (c : Char) : List Nat :=
  let v := c.toNat
  if v < 128 then [v]
  else if v < 2048 then
    [192 ||| (v >>> 6), 128 ||| (v &&& 63)]
  else if v < 65536 then
    [224 ||| (v >>> 12), 128 ||| ((v >>> 6) &&& 63), 128 ||| (v &&& 63)]
  else
    [240 ||| (v >>> 18), 128 ||| ((v >>> 12) &&& 63),
     128 ||| ((v >>> 6) &&& 63), 128 ||| (v &&& 63)]

/-- The UTF-8 bytes of a string. -/
def strBytes (s : String) : List Nat :=
  s.data.flatMap utf8Bytes

/-- The UTF-8 bytes of the pending error message. -/
def errBytes (st : FFIState) : List Nat :=
  strBytes st.lastError

/-- Modelled from the spec: uint64_t termisu_last_error_length(void) —
the byte length of the pending message, 0 when none is pending. -/
def termisu_last_error_length (st : FFIState) : Nat :=
  (errBytes st).length

/-- Modelled from the spec: uint64_t termisu_last_error_copy(buffer, n) —
writes up to the buffer capacity of the pending message's bytes and
returns the number of bytes actually available. -/
def termisu_last_error_copy (bufferLen : Nat) (st : FFIState) :
    List Nat × Nat :=
  ((errBytes st).take bufferLen, (errBytes st).length)

/-- Modelled from the spec: void termisu_clear_error(void) — discards the
pending message unconditionally. -/
def termisu_clear_error (st : FFIState) : FFIState :=
  { st with lastError := "" }

/-- The constant TERMISU_FFI_VERSION from ffi.h line 11. -/
def TERMISU_FFI_VERSION : Nat := 1

/-- Modelled from the spec: uint32_t termisu_abi_version(void) returns the
contract version, which the conformance test requires to equal
TERMISU_FFI_VERSION. -/
def termisu_abi_version : Nat := TERMISU_FFI_VERSION

/-- One call at the boundary, for reasoning about call sequences. -/
inductive Call where
  | create (syncOn : Bool) (hostOk : Bool) (hostMsg : String)
  | op (h : Nat) (o : Op) (host : HostOutcome) (hsz : SizeRec)
      (hpoll : PollOutcome)
deriving DecidableEq, Repr

/-- The state after one call. -/
def doCall (c : Call) (st : FFIState) : FFIState :=
  match c with
  | .create s ok m => (termisu_create s ok m st).2
  | .op h o ho sz po => (step h o ho sz po st).state

/-- The state after a sequence of calls. -/
def runCalls : List Call → FFIState → FFIState
  | [], st => st
  | c :: rest, st => runCalls rest (doCall c st)

/-- The nonemptiness side condition on the host engine's diagnostic
messages (spec §7: every failing call carries a specific human-readable
message). -/
def HostOutcome.goodMsg : HostOutcome → Prop
  | .ok => True
  | .rejected m => m ≠ ""
  | .failed m => m ≠ ""

instance (ho : HostOutcome) : Decidable ho.goodMsg := by
  cases ho <;> simp [HostOutcome.goodMsg] <;> infer_instance

/-- The same side condition for poll outcomes. -/
def PollOutcome.goodMsg : PollOutcome → Prop
  | .event _ => True
  | .timeout => True
  | .failed m => m ≠ ""

instance (po : PollOutcome) : Decidable po.goodMsg := by
  cases po <;> simp [PollOutcome.goodMsg] <;> infer_instance

/-- A UTF-8 encoding is never empty. -/
theorem utf8Bytes_ne_nil (c : Char) : utf8Bytes c ≠ [] := by
  simp only [utf8Bytes]
  split_ifs <;> simp

/-- A nonempty string has a nonempty byte encoding. -/
theorem strBytes_ne_nil (s : String) (hs : s ≠ "") : strBytes s ≠ [] := by
  cases s with
  | mk data =>
    cases data with
    | nil => exact absurd rfl hs
    | cons c cs =>
      simp only [strBytes, List.flatMap_cons]
      intro hcontra
      rcases List.append_eq_nil.mp hcontra with ⟨h1, _⟩
      exact utf8Bytes_ne_nil c h1

/-- A nonempty pending message has positive reported byte length. -/
theorem err_length_pos (st : FFIState) (hs : st.lastError ≠ "") :
    0 < termisu_last_error_length st := by
  have h := strBytes_ne_nil st.lastError hs
  simp only [termisu_last_error_length, errBytes]
  exact List.length_pos.mpr h

/-- An op whose out-pointer is NULL has a nonempty "<name> is null"
message. -/
theorem nullMsg_ne_empty (op : Op) (hn : op.nullOut = true) :
    op.nullMsg ≠ "" := by
  cases op <;> simp_all [Op.nullOut, Op.nullMsg]

/-- An op whose out-pointer is NULL has an out-parameter, and the
diagnostic names it. -/
theorem nullMsg_eq_outName (op : Op) (hn : op.nullOut = true) :
    ∃ nm, op.outName = some nm ∧ op.nullMsg = nm ++ " is null" := by
  cases op <;> simp_all [Op.nullOut, Op.nullMsg, Op.outName]

/-- A NULL out-pointer short-circuits with Invalid-Argument, the
"<name> is null" message, and no write through the pointer. -/
theorem step_nullOut (h : Nat) (op : Op) (host : HostOutcome)
    (hsz : SizeRec) (hpoll : PollOutcome) (st : FFIState)
    (hn : op.nullOut = true) :
    step h op host hsz hpoll st =
      ⟨.invalidArgument, setErr st op.nullMsg, none⟩ := by
  simp [step, hn]

/-- A non-validating handle (with a non-NULL out-pointer) short-circuits
with Invalid-Handle, the "Invalid handle" message, and no other effect. -/
theorem step_invalid (h : Nat) (op : Op) (host : HostOutcome)
    (hsz : SizeRec) (hpoll : PollOutcome) (st : FFIState)
    (hn : op.nullOut = false) (hv : valid st h = false) :
    step h op host hsz hpoll st =
      ⟨.invalidHandle, setErr st "Invalid handle", none⟩ := by
  cases op <;> simp_all [step]

set_option maxHeartbeats 2000000 in
/-- Anatomy of one call: what the resulting status implies about the
pending error message afterwards. -/
theorem step_anatomy (h : Nat) (op : Op) (host : HostOutcome)
    (hsz : SizeRec) (hpoll : PollOutcome) (st : FFIState) :
    ((step h op host hsz hpoll st).status = .ok →
      (step h op host hsz hpoll st).state.lastError = st.lastError) ∧
    ((step h op host hsz hpoll st).status = .timeout →
      (step h op host hsz hpoll st).state.lastError = st.lastError) ∧
    ((step h op host hsz hpoll st).status = .invalidHandle →
      (step h op host hsz hpoll st).state.lastError = "Invalid handle") ∧
    ((step h op host hsz hpoll st).status = .invalidArgument →
      op.nullOut = true ∧
      (step h op host hsz hpoll st).state.lastError = op.nullMsg) ∧
    ((step h op host hsz hpoll st).status = .rejected →
      ∃ m, host = .rejected m ∧
        (step h op host hsz hpoll st).state.lastError = m) ∧
    ((step h op host hsz hpoll st).status = .error →
      (∃ m, host = .failed m ∧
        (step h op host hsz hpoll st).state.lastError = m) ∨
      (∃ m, hpoll = .failed m ∧
        (step h op host hsz hpoll st).state.lastError = m)) := by
  cases op <;> cases host <;> cases hpoll <;>
    simp only [step, Op.nullOut, Op.nullMsg, setErr] <;>
    split_ifs <;> simp_all

/-- Handle validation never reads the pending error message. -/
theorem valid_lastError (st : FFIState) (h : Nat) (p : String) :
    valid { st with lastError := p } h = valid st h := rfl

set_option maxHeartbeats 2000000 in
/-- The status of a call does not depend on the pending error message. -/
theorem step_status_indep (h : Nat) (op : Op) (host : HostOutcome)
    (hsz : SizeRec) (hpoll : PollOutcome) (st : FFIState) (p : String) :
    (step h op host hsz hpoll { st with lastError := p }).status =
      (step h op host hsz hpoll st).status := by
  cases op <;> cases host <;> cases hpoll <;>
    simp only [step, Op.nullOut, setErr, valid_lastError] <;>
    split_ifs <;> simp_all

/-- Once recorded as destroyed, a handle stays recorded after any call. -/
theorem doCall_destroyed_sup (c : Call) (st : FFIState) (x : Nat)
    (hx : x ∈ st.destroyed) : x ∈ (doCall c st).destroyed := by
  cases c with
  | create s ok m =>
    simp only [doCall, termisu_create]
    split_ifs <;> exact hx
  | op h o ho sz po =>
    cases o <;> cases ho <;> cases po <;>
      simp only [doCall, step, Op.nullOut, setErr] <;>
      split_ifs <;> first | exact hx | exact List.mem_cons_of_mem _ hx

/-- Once recorded as destroyed, a handle stays recorded after any
sequence of calls. -/
theorem runCalls_destroyed_sup (cs : List Call) (st : FFIState) (x : Nat)
    (hx : x ∈ st.destroyed) : x ∈ (runCalls cs st).destroyed := by
  induction cs generalizing st with
  | nil => exact hx
  | cons c rest ih =>
    exact ih (doCall c st) (doCall_destroyed_sup c st x hx)

/-- A failing call — non-OK and non-Timeout — leaves a nonempty pending
message, given that the host engine's own diagnostics are nonempty. -/
theorem step_fail_msg_ne (h : Nat) (op : Op) (host : HostOutcome)
    (hsz : SizeRec) (hpoll : PollOutcome) (st : FFIState)
    (hg1 : host.goodMsg) (hg2 : hpoll.goodMsg)
    (h1 : (step h op host hsz hpoll st).status ≠ Status.ok)
    (h2 : (step h op host hsz hpoll st).status ≠ Status.timeout) :
    (step h op host hsz hpoll st).state.lastError ≠ "" := by
  obtain ⟨hok, hto, hih, hia, hrj, her⟩ :=
    step_anatomy h op host hsz hpoll st
  cases hstat : (step h op host hsz hpoll st).status with
  | ok => exact absurd hstat h1
  | timeout => exact absurd hstat h2
  | invalidArgument =>
    obtain ⟨hn, hmsg⟩ := hia hstat
    rw [hmsg]
    exact nullMsg_ne_empty op hn
  | invalidHandle =>
    rw [hih hstat]
    decide
  | rejected =>
    obtain ⟨m, hhost, hmsg⟩ := hrj hstat
    rw [hmsg]
    subst hhost
    exact hg1
  | error =>
    rcases her hstat with ⟨m, hhost, hmsg⟩ | ⟨m, hpl, hmsg⟩
    · rw [hmsg]
      subst hhost
      exact hg1
    · rw [hmsg]
      subst hpl
      exact hg2

set_option maxHeartbeats 2000000 in
/-- On a failing call the resulting message does not depend on what was
pending before the call (the channel is overwritten, never appended to);
on a non-failing call both prior messages survive unchanged. -/
theorem step_msg_indep (h : Nat) (op : Op) (host : HostOutcome)
    (hsz : SizeRec) (hpoll : PollOutcome) (st : FFIState) (p q : String) :
    ((step h op host hsz hpoll { st with lastError := p }).state.lastError =
      (step h op host hsz hpoll { st with lastError := q }).state.lastError) ∨
    (step h op host hsz hpoll st).status = Status.ok ∨
    (step h op host hsz hpoll st).status = Status.timeout := by
  cases op <;> cases host <;> cases hpoll <;>
    simp only [step, Op.nullOut, Op.nullMsg, setErr, valid_lastError] <;>
    split_ifs <;>
    first
      | exact Or.inl rfl
      | exact Or.inr (Or.inl rfl)
      | exact Or.inr (Or.inr rfl)
      | simp_all

/-- A poll with a non-NULL out-pointer on a valid handle whose wait times
out returns Timeout and leaves the whole state unchanged. -/
theorem step_poll_timeout (h : Nat) (t : Int) (host : HostOutcome)
    (hsz : SizeRec) (st : FFIState) (hv : valid st h = true) :
    step h (.pollEvent t false) host hsz .timeout st =
      ⟨.timeout, st, none⟩ := by
  simp [step, Op.nullOut, hv]

end Termisu

namespace Termisu

/-- C1: the compiled size and every field byte offset of each shared struct
equal the published contract: termisu_color_t is 12 bytes with mode@0,
reserved@1, index@4, r@8, g@9, b@10; termisu_cell_style_t is 28 bytes with
fg@0, bg@12, attr@24; termisu_size_t is 8 bytes with width@0, height@4;
termisu_event_t is 96 bytes with all twenty listed offsets. -/
theorem C1_struct_layouts :
    sizeofStruct termisu_color_t = 12 ∧
    offsetofField termisu_color_t "mode" = some 0 ∧
    offsetofField termisu_color_t "reserved" = some 1 ∧
    offsetofField termisu_color_t "index" = some 4 ∧
    offsetofField termisu_color_t "r" = some 8 ∧
    offsetofField termisu_color_t "g" = some 9 ∧
    offsetofField termisu_color_t "b" = some 10 ∧
    sizeofStruct termisu_cell_style_t = 28 ∧
    offsetofField termisu_cell_style_t "fg" = some 0 ∧
    offsetofField termisu_cell_style_t "bg" = some 12 ∧
    offsetofField termisu_cell_style_t "attr" = some 24 ∧
    sizeofStruct termisu_size_t = 8 ∧
    offsetofField termisu_size_t "width" = some 0 ∧
    offsetofField termisu_size_t "height" = some 4 ∧
    sizeofStruct termisu_event_t = 96 ∧
    offsetofField termisu_event_t "event_type" = some 0 ∧
    offsetofField termisu_event_t "modifiers" = some 1 ∧
    offsetofField termisu_event_t "key_code" = some 4 ∧
    offsetofField termisu_event_t "key_char" = some 8 ∧
    offsetofField termisu_event_t "mouse_x" = some 12 ∧
    offsetofField termisu_event_t "mouse_y" = some 16 ∧
    offsetofField termisu_event_t "mouse_button" = some 20 ∧
    offsetofField termisu_event_t "mouse_motion" = some 24 ∧
    offsetofField termisu_event_t "resize_width" = some 28 ∧
    offsetofField termisu_event_t "resize_height" = some 32 ∧
    offsetofField termisu_event_t "resize_old_width" = some 36 ∧
    offsetofField termisu_event_t "resize_old_height" = some 40 ∧
    offsetofField termisu_event_t "resize_has_old" = some 44 ∧
    offsetofField termisu_event_t "tick_frame" = some 48 ∧
    offsetofField termisu_event_t "tick_elapsed_ns" = some 56 ∧
    offsetofField termisu_event_t "tick_delta_ns" = some 64 ∧
    offsetofField termisu_event_t "tick_missed_ticks" = some 72 ∧
    offsetofField termisu_event_t "mode_current" = some 80 ∧
    offsetofField termisu_event_t "mode_previous" = some 84 ∧
    offsetofField termisu_event_t "mode_has_previous" = some 88 := by
  decide

/-- C2 counterexample: the claim says every handle-taking operation given
an invalid handle returns Invalid-Handle with an "Invalid handle" message;
but poll_event called with handle 0 and a NULL out_event returns
Invalid-Argument with the message "out_event is null" (this is exactly
what the repository's own test asserts at ffi_test.c line 93). -/
theorem C2_counterexample :
    valid initState 0 = false ∧
    (step 0 (Op.pollEvent 0 true) HostOutcome.ok ⟨80, 24⟩
      PollOutcome.timeout initState).status = Status.invalidArgument ∧
    (step 0 (Op.pollEvent 0 true) HostOutcome.ok ⟨80, 24⟩
      PollOutcome.timeout initState).status ≠ Status.invalidHandle ∧
    (step 0 (Op.pollEvent 0 true) HostOutcome.ok ⟨80, 24⟩
      PollOutcome.timeout initState).state.lastError = "out_event is null" := by
  decide

/-- C2 amended: for every handle value that is zero, never issued, or
already destroyed, every handle-taking operation with non-NULL pointer
arguments returns Invalid-Handle and populates the error channel with a
message containing "Invalid handle" without touching registry state; no
operation on such a handle ever returns OK (a NULL out-pointer yields
Invalid-Argument instead); and once a handle is destroyed this rejection
holds permanently across any further sequence of calls. -/
theorem C2_invalid_handle_rejection
    (st : FFIState) (h hd : Nat) (op : Op) (host : HostOutcome)
    (hsz : SizeRec) (hpoll : PollOutcome) (cs : List Call)
    (hv : valid st h = false) :
    (step h op host hsz hpoll st).status ≠ Status.ok ∧
    (op.nullOut = false →
      (step h op host hsz hpoll st).status = Status.invalidHandle ∧
      (∃ pre post, (step h op host hsz hpoll st).state.lastError =
        pre ++ "Invalid handle" ++ post) ∧
      (step h op host hsz hpoll st).state.issued = st.issued ∧
      (step h op host hsz hpoll st).state.destroyed = st.destroyed ∧
      (step h op host hsz hpoll st).state.nextId = st.nextId ∧
      (step h op host hsz hpoll st).state.sync = st.sync) ∧
    (hd ∈ st.destroyed → valid (runCalls cs st) hd = false) := by
  refine ⟨?_, ?_, ?_⟩
  · by_cases hn : op.nullOut = true
    · rw [step_nullOut h op host hsz hpoll st hn]
      exact fun hc => Status.noConfusion hc
    · have hn2 : op.nullOut = false := by simpa using hn
      rw [step_invalid h op host hsz hpoll st hn2 hv]
      exact fun hc => Status.noConfusion hc
  · intro hn
    rw [step_invalid h op host hsz hpoll st hn hv]
    exact ⟨rfl, ⟨"", "", rfl⟩, rfl, rfl, rfl, rfl⟩
  · intro hdd
    have hmem := runCalls_destroyed_sup cs st hd hdd
    have hdec : decide (hd ∉ (runCalls cs st).destroyed) = false := by
      simp [hmem]
    simp [valid, hdec]

/-- C2 witness: a concrete state in which handle 1 was issued and then
destroyed; running termisu_clear on it is rejected as stated. -/
theorem C2_witness :
    valid ⟨2, [1], [1], [(1, true)], ""⟩ 1 = false ∧
    ((step 1 Op.clear HostOutcome.ok ⟨80, 24⟩ PollOutcome.timeout
        ⟨2, [1], [1], [(1, true)], ""⟩).status ≠ Status.ok ∧
      ((Op.clear).nullOut = false →
        (step 1 Op.clear HostOutcome.ok ⟨80, 24⟩ PollOutcome.timeout
          ⟨2, [1], [1], [(1, true)], ""⟩).status = Status.invalidHandle ∧
        (∃ pre post,
          (step 1 Op.clear HostOutcome.ok ⟨80, 24⟩ PollOutcome.timeout
            ⟨2, [1], [1], [(1, true)], ""⟩).state.lastError =
              pre ++ "Invalid handle" ++ post) ∧
        (step 1 Op.clear HostOutcome.ok ⟨80, 24⟩ PollOutcome.timeout
          ⟨2, [1], [1], [(1, true)], ""⟩).state.issued = [1] ∧
        (step 1 Op.clear HostOutcome.ok ⟨80, 24⟩ PollOutcome.timeout
          ⟨2, [1], [1], [(1, true)], ""⟩).state.destroyed = [1] ∧
        (step 1 Op.clear HostOutcome.ok ⟨80, 24⟩ PollOutcome.timeout
          ⟨2, [1], [1], [(1, true)], ""⟩).state.nextId = 2 ∧
        (step 1 Op.clear HostOutcome.ok ⟨80, 24⟩ PollOutcome.timeout
          ⟨2, [1], [1], [(1, true)], ""⟩).state.sync = [(1, true)]) ∧
      (1 ∈ ([1] : List Nat) →
        valid (runCalls [Call.create true true "m"]
          ⟨2, [1], [1], [(1, true)], ""⟩) 1 = false)) :=
  ⟨by decide,
   C2_invalid_handle_rejection ⟨2, [1], [1], [(1, true)], ""⟩ 1 1 Op.clear
     HostOutcome.ok ⟨80, 24⟩ PollOutcome.timeout
     [Call.create true true "m"] (by decide)⟩

/-- C3: an operation with a pointer-typed out-parameter called with NULL
returns Invalid-Argument, sets the message "<name> is null", and writes
nothing through the pointer; in particular poll_event with a NULL
out_event returns Invalid-Argument with error text containing
"out_event is null". -/
theorem C3_null_out_pointer_rejected
    (st : FFIState) (h : Nat) (op : Op) (host : HostOutcome)
    (hsz : SizeRec) (hpoll : PollOutcome) (nm : String) (t : Int)
    (ho : op.outName = some nm) (hn : op.nullOut = true) :
    (step h op host hsz hpoll st).status = Status.invalidArgument ∧
    (step h op host hsz hpoll st).state.lastError = nm ++ " is null" ∧
    (step h op host hsz hpoll st).output = none ∧
    (step h (Op.pollEvent t true) host hsz hpoll st).status =
      Status.invalidArgument ∧
    (∃ pre post,
      (step h (Op.pollEvent t true) host hsz hpoll st).state.lastError =
        pre ++ "out_event is null" ++ post) := by
  obtain ⟨nm2, ho2, hmsg⟩ := nullMsg_eq_outName op hn
  rw [ho] at ho2
  have hnm : nm2 = nm := by injection ho2.symm
  subst hnm
  rw [step_nullOut h op host hsz hpoll st hn]
  rw [step_nullOut h (Op.pollEvent t true) host hsz hpoll st rfl]
  exact ⟨rfl, hmsg, rfl, rfl, "", "", rfl⟩

/-- C3 witness: termisu_size called with a NULL out_size on the initial
state, with the general statement also instantiated for poll_event. -/
theorem C3_witness :
    (Op.size true).outName = some "out_size" ∧
    (Op.size true).nullOut = true ∧
    ((step 0 (Op.size true) HostOutcome.ok ⟨80, 24⟩ PollOutcome.timeout
        initState).status = Status.invalidArgument ∧
      (step 0 (Op.size true) HostOutcome.ok ⟨80, 24⟩ PollOutcome.timeout
        initState).state.lastError = "out_size" ++ " is null" ∧
      (step 0 (Op.size true) HostOutcome.ok ⟨80, 24⟩ PollOutcome.timeout
        initState).output = none ∧
      (step 0 (Op.pollEvent 7 true) HostOutcome.ok ⟨80, 24⟩
        PollOutcome.timeout initState).status = Status.invalidArgument ∧
      (∃ pre post,
        (step 0 (Op.pollEvent 7 true) HostOutcome.ok ⟨80, 24⟩
          PollOutcome.timeout initState).state.lastError =
            pre ++ "out_event is null" ++ post)) :=
  ⟨by decide, by decide,
   C3_null_out_pointer_rejected initState 0 (Op.size true) HostOutcome.ok
     ⟨80, 24⟩ PollOutcome.timeout "out_size" 7 (by decide) (by decide)⟩

/-- C4: every failing call overwrites (never appends to) the pending
message before returning, so the reported length is positive afterwards; a
failing create also populates the channel; a successful call does not
clear a pending message; and clear_error unconditionally and idempotently
empties the channel. -/
theorem C4_error_channel_discipline
    (st : FFIState) (h : Nat) (op : Op) (host : HostOutcome)
    (hsz : SizeRec) (hpoll : PollOutcome) (p q msg : String)
    (hg1 : host.goodMsg) (hg2 : hpoll.goodMsg) (hm : msg ≠ "") :
    ((step h op host hsz hpoll st).status ≠ Status.ok →
      (step h op host hsz hpoll st).status ≠ Status.timeout →
      0 < termisu_last_error_length (step h op host hsz hpoll st).state) ∧
    ((step h op host hsz hpoll st).status ≠ Status.ok →
      (step h op host hsz hpoll st).status ≠ Status.timeout →
      (step h op host hsz hpoll { st with lastError := p }).state.lastError =
        (step h op host hsz hpoll { st with lastError := q }).state.lastError) ∧
    ((termisu_create true false msg st).1 = 0 ∧
      (termisu_create true false msg st).2.lastError = msg ∧
      0 < termisu_last_error_length (termisu_create true false msg st).2) ∧
    ((step h op host hsz hpoll st).status = Status.ok →
      (step h op host hsz hpoll st).state.lastError = st.lastError) ∧
    termisu_last_error_length (termisu_clear_error st) = 0 ∧
    termisu_clear_error (termisu_clear_error st) = termisu_clear_error st := by
  refine ⟨?_, ?_, ⟨rfl, rfl, err_length_pos _ hm⟩, ?_, rfl, rfl⟩
  · intro h1 h2
    exact err_length_pos _ (step_fail_msg_ne h op host hsz hpoll st hg1 hg2 h1 h2)
  · intro h1 h2
    rcases step_msg_indep h op host hsz hpoll st p q with heq | hok | hto
    · exact heq
    · exact absurd hok h1
    · exact absurd hto h2
  · exact (step_anatomy h op host hsz hpoll st).1

/-- C4 witness: destroying handle 0 on the initial state fails and the
channel discipline holds there concretely. -/
theorem C4_witness :
    HostOutcome.goodMsg HostOutcome.ok ∧
    PollOutcome.goodMsg PollOutcome.timeout ∧
    ("boom" : String) ≠ "" ∧
    (((step 0 Op.destroy HostOutcome.ok ⟨80, 24⟩ PollOutcome.timeout
        initState).status ≠ Status.ok →
      (step 0 Op.destroy HostOutcome.ok ⟨80, 24⟩ PollOutcome.timeout
        initState).status ≠ Status.timeout →
      0 < termisu_last_error_length
        (step 0 Op.destroy HostOutcome.ok ⟨80, 24⟩ PollOutcome.timeout
          initState).state) ∧
    ((step 0 Op.destroy HostOutcome.ok ⟨80, 24⟩ PollOutcome.timeout
        initState).status ≠ Status.ok →
      (step 0 Op.destroy HostOutcome.ok ⟨80, 24⟩ PollOutcome.timeout
        initState).status ≠ Status.timeout →
      (step 0 Op.destroy HostOutcome.ok ⟨80, 24⟩ PollOutcome.timeout
        { initState with lastError := "a" }).state.lastError =
      (step 0 Op.destroy HostOutcome.ok ⟨80, 24⟩ PollOutcome.timeout
        { initState with lastError := "b" }).state.lastError) ∧
    ((termisu_create true false "boom" initState).1 = 0 ∧
      (termisu_create true false "boom" initState).2.lastError = "boom" ∧
      0 < termisu_last_error_length
        (termisu_create true false "boom" initState).2) ∧
    ((step 0 Op.destroy HostOutcome.ok ⟨80, 24⟩ PollOutcome.timeout
        initState).status = Status.ok →
      (step 0 Op.destroy HostOutcome.ok ⟨80, 24⟩ PollOutcome.timeout
        initState).state.lastError = initState.lastError) ∧
    termisu_last_error_length (termisu_clear_error initState) = 0 ∧
    termisu_clear_error (termisu_clear_error initState) =
      termisu_clear_error initState) :=
  ⟨by decide, by decide, by decide,
   C4_error_channel_discipline initState 0 Op.destroy HostOutcome.ok
     ⟨80, 24⟩ PollOutcome.timeout "a" "b" "boom"
     (by decide) (by decide) (by decide)⟩

/-- C5: polling a valid handle with no incoming input returns Timeout on
every call of the sequence and leaves the whole state — in particular an
empty error channel — untouched throughout, while any call returning a
non-OK, non-Timeout status sets a nonempty message before returning. -/
theorem C5_timeout_never_touches_error_channel
    (st st2 : FFIState) (h h2 : Nat) (t : Int) (n : Nat)
    (host host2 : HostOutcome) (hsz hsz2 : SizeRec) (op2 : Op)
    (hpoll2 : PollOutcome)
    (hv : valid st h = true) (he : st.lastError = "")
    (hg1 : host2.goodMsg) (hg2 : hpoll2.goodMsg) :
    (fun s => (step h (Op.pollEvent t false) host hsz
      PollOutcome.timeout s).state)^[n] st = st ∧
    (step h (Op.pollEvent t false) host hsz PollOutcome.timeout st).status =
      Status.timeout ∧
    termisu_last_error_length
      ((fun s => (step h (Op.pollEvent t false) host hsz
        PollOutcome.timeout s).state)^[n] st) = 0 ∧
    ((step h2 op2 host2 hsz2 hpoll2 st2).status ≠ Status.ok →
      (step h2 op2 host2 hsz2 hpoll2 st2).status ≠ Status.timeout →
      (step h2 op2 host2 hsz2 hpoll2 st2).state.lastError ≠ "") := by
  have hfix : (fun s => (step h (Op.pollEvent t false) host hsz
      PollOutcome.timeout s).state) st = st := by
    show (step h (Op.pollEvent t false) host hsz
      PollOutcome.timeout st).state = st
    rw [step_poll_timeout h t host hsz st hv]
  have hit := @Function.iterate_fixed FFIState
    (fun s => (step h (Op.pollEvent t false) host hsz
      PollOutcome.timeout s).state) st hfix n
  refine ⟨hit, ?_, ?_, step_fail_msg_ne h2 op2 host2 hsz2 hpoll2 st2 hg1 hg2⟩
  · rw [step_poll_timeout h t host hsz st hv]
  · rw [hit]
    simp only [termisu_last_error_length, errBytes]
    rw [he]
    rfl

/-- C5 witness: three polls on live handle 1 of a freshly created session
stay in Timeout with the channel empty, and a concrete failing call
(render on the never-issued handle 0) sets a message. -/
theorem C5_witness :
    valid ⟨2, [1], [], [(1, true)], ""⟩ 1 = true ∧
    (⟨2, [1], [], [(1, true)], ""⟩ : FFIState).lastError = "" ∧
    ((fun s => (step 1 (Op.pollEvent 50 false) HostOutcome.ok ⟨80, 24⟩
        PollOutcome.timeout s).state)^[3] ⟨2, [1], [], [(1, true)], ""⟩ =
      ⟨2, [1], [], [(1, true)], ""⟩ ∧
    (step 1 (Op.pollEvent 50 false) HostOutcome.ok ⟨80, 24⟩
      PollOutcome.timeout ⟨2, [1], [], [(1, true)], ""⟩).status =
        Status.timeout ∧
    termisu_last_error_length
      ((fun s => (step 1 (Op.pollEvent 50 false) HostOutcome.ok ⟨80, 24⟩
        PollOutcome.timeout s).state)^[3] ⟨2, [1], [], [(1, true)], ""⟩) = 0 ∧
    ((step 0 Op.render HostOutcome.ok ⟨80, 24⟩ PollOutcome.timeout
        initState).status ≠ Status.ok →
      (step 0 Op.render HostOutcome.ok ⟨80, 24⟩ PollOutcome.timeout
        initState).status ≠ Status.timeout →
      (step 0 Op.render HostOutcome.ok ⟨80, 24⟩ PollOutcome.timeout
        initState).state.lastError ≠ "")) :=
  ⟨by decide, by decide,
   C5_timeout_never_touches_error_channel ⟨2, [1], [], [(1, true)], ""⟩
     initState 1 0 50 3 HostOutcome.ok HostOutcome.ok ⟨80, 24⟩ ⟨80, 24⟩
     Op.render PollOutcome.timeout (by decide) (by decide)
     (by decide) (by decide)⟩

/-- C6: last_error_length reports the byte length of the pending message
(0 when none is pending), and last_error_copy writes at most the buffer
capacity of bytes — an initial segment of the message — while returning
the full number of bytes available, which exceeds the capacity exactly
when the message was truncated. -/
theorem C6_last_error_query_and_copy (st : FFIState) (cap : Nat) :
    (termisu_last_error_copy cap st).1.length =
      min cap (termisu_last_error_length st) ∧
    (termisu_last_error_copy cap st).1.length ≤ cap ∧
    (termisu_last_error_copy cap st).1 ++ List.drop cap (errBytes st) =
      errBytes st ∧
    (termisu_last_error_copy cap st).2 = termisu_last_error_length st ∧
    (st.lastError = "" → termisu_last_error_length st = 0) ∧
    (cap < termisu_last_error_length st →
      (termisu_last_error_copy cap st).1.length = cap) := by
  refine ⟨?_, ?_, ?_, rfl, ?_, ?_⟩
  · simp only [termisu_last_error_copy, termisu_last_error_length]
    exact List.length_take cap (errBytes st)
  · simp only [termisu_last_error_copy]
    exact List.length_take_le cap (errBytes st)
  · simp only [termisu_last_error_copy]
    exact List.take_append_drop cap (errBytes st)
  · intro he
    simp only [termisu_last_error_length, errBytes]
    rw [he]
    rfl
  · intro hlt
    simp only [termisu_last_error_copy, List.length_take]
    exact Nat.min_eq_left (Nat.le_of_lt hlt)

/-- C6 witness: copying the pending message "Invalid handle" (14 bytes)
into a 4-byte buffer. -/
theorem C6_witness :
    (termisu_last_error_copy 4 ⟨1, [], [], [], "Invalid handle"⟩).1.length =
      min 4 (termisu_last_error_length ⟨1, [], [], [], "Invalid handle"⟩) ∧
    (termisu_last_error_copy 4 ⟨1, [], [], [], "Invalid handle"⟩).1.length
      ≤ 4 ∧
    (termisu_last_error_copy 4 ⟨1, [], [], [], "Invalid handle"⟩).1 ++
      List.drop 4 (errBytes ⟨1, [], [], [], "Invalid handle"⟩) =
        errBytes ⟨1, [], [], [], "Invalid handle"⟩ ∧
    (termisu_last_error_copy 4 ⟨1, [], [], [], "Invalid handle"⟩).2 =
      termisu_last_error_length ⟨1, [], [], [], "Invalid handle"⟩ ∧
    ((⟨1, [], [], [], "Invalid handle"⟩ : FFIState).lastError = "" →
      termisu_last_error_length ⟨1, [], [], [], "Invalid handle"⟩ = 0) ∧
    (4 < termisu_last_error_length ⟨1, [], [], [], "Invalid handle"⟩ →
      (termisu_last_error_copy 4
        ⟨1, [], [], [], "Invalid handle"⟩).1.length = 4) :=
  C6_last_error_query_and_copy ⟨1, [], [], [], "Invalid handle"⟩ 4

/-- C7: on host success create(sync=1) returns a fresh non-zero handle
distinct from every live handle, the new handle validates, its
synchronized-updates flag reads back as 1, and the error channel is left
alone (so still empty when no prior call failed); on host failure create
returns 0 and populates the error channel. -/
theorem C7_create_fresh_handle (st : FFIState) (msg : String)
    (hw : Wf st) (hm : msg ≠ "") :
    (termisu_create true true msg st).1 ≠ 0 ∧
    (termisu_create true true msg st).1 ∉ st.issued ∧
    valid (termisu_create true true msg st).2
      (termisu_create true true msg st).1 = true ∧
    termisu_sync_updates (termisu_create true true msg st).1
      (termisu_create true true msg st).2 = 1 ∧
    (termisu_create true true msg st).2.lastError = st.lastError ∧
    (st.lastError = "" →
      termisu_last_error_length (termisu_create true true msg st).2 = 0) ∧
    (termisu_create true false msg st).1 = 0 ∧
    (termisu_create true false msg st).2.lastError = msg ∧
    0 < termisu_last_error_length (termisu_create true false msg st).2 := by
  obtain ⟨hpos, hiss, hdes⟩ := hw
  have hnotdes : st.nextId ∉ st.destroyed := by
    intro hmem
    exact absurd (hiss _ (hdes _ hmem)).2 (lt_irrefl _)
  have h1 : (termisu_create true true msg st).1 = st.nextId := rfl
  refine ⟨?_, ?_, ?_, ?_, rfl, ?_, rfl, rfl, err_length_pos _ hm⟩
  · rw [h1]
    omega
  · rw [h1]
    intro hmem
    exact absurd (hiss _ hmem).2 (lt_irrefl _)
  · simp [termisu_create, valid, hnotdes]
  · simp [termisu_create, termisu_sync_updates, valid, syncFlag,
      List.lookup, hnotdes]
  · intro he
    have hpres : (termisu_create true true msg st).2.lastError =
      st.lastError := rfl
    simp only [termisu_last_error_length, errBytes, hpres, he]
    rfl

/-- C7 witness: creating the first session on the initial state. -/
theorem C7_witness :
    Wf initState ∧
    ("boom" : String) ≠ "" ∧
    ((termisu_create true true "boom" initState).1 ≠ 0 ∧
    (termisu_create true true "boom" initState).1 ∉ initState.issued ∧
    valid (termisu_create true true "boom" initState).2
      (termisu_create true true "boom" initState).1 = true ∧
    termisu_sync_updates (termisu_create true true "boom" initState).1
      (termisu_create true true "boom" initState).2 = 1 ∧
    (termisu_create true true "boom" initState).2.lastError =
      initState.lastError ∧
    (initState.lastError = "" →
      termisu_last_error_length
        (termisu_create true true "boom" initState).2 = 0) ∧
    (termisu_create true false "boom" initState).1 = 0 ∧
    (termisu_create true false "boom" initState).2.lastError = "boom" ∧
    0 < termisu_last_error_length
      (termisu_create true false "boom" initState).2) :=
  ⟨by decide, by decide,
   C7_create_fresh_handle initState "boom" (by decide) (by decide)⟩

/-- C8 counterexample: the claim says handle validation comes first even
when a pointer argument is also invalid; but on the destroyed handle 1
poll_event with a NULL out_event returns Invalid-Argument, not
Invalid-Handle (matching the order the repository's test pins for
poll_event with the invalid handle 0 at ffi_test.c line 93). -/
theorem C8_counterexample :
    valid ⟨2, [1], [1], [(1, true)], ""⟩ 1 = false ∧
    (step 1 (Op.pollEvent 5 true) HostOutcome.ok ⟨80, 24⟩
      PollOutcome.timeout ⟨2, [1], [1], [(1, true)], ""⟩).status =
        Status.invalidArgument ∧
    (step 1 (Op.pollEvent 5 true) HostOutcome.ok ⟨80, 24⟩
      PollOutcome.timeout ⟨2, [1], [1], [(1, true)], ""⟩).status ≠
        Status.invalidHandle := by
  decide

/-- C8 amended: for every handle-taking operation, a non-validating
handle yields Invalid-Handle with no other action — the registry and
every out-parameter are untouched — except that rejection of a NULL
out-pointer takes precedence: when both the handle and the out-pointer
are invalid the result is Invalid-Argument (still with no write through
any pointer). -/
theorem C8_handle_validation_short_circuit
    (st : FFIState) (h : Nat) (op : Op) (host : HostOutcome)
    (hsz : SizeRec) (hpoll : PollOutcome)
    (hv : valid st h = false) :
    (op.nullOut = false →
      (step h op host hsz hpoll st).status = Status.invalidHandle ∧
      (step h op host hsz hpoll st).state.issued = st.issued ∧
      (step h op host hsz hpoll st).state.destroyed = st.destroyed ∧
      (step h op host hsz hpoll st).state.nextId = st.nextId ∧
      (step h op host hsz hpoll st).state.sync = st.sync ∧
      (step h op host hsz hpoll st).output = none) ∧
    (op.nullOut = true →
      (step h op host hsz hpoll st).status = Status.invalidArgument ∧
      (step h op host hsz hpoll st).output = none) := by
  constructor
  · intro hn
    rw [step_invalid h op host hsz hpoll st hn hv]
    exact ⟨rfl, rfl, rfl, rfl, rfl, rfl⟩
  · intro hn
    rw [step_nullOut h op host hsz hpoll st hn]
    exact ⟨rfl, rfl⟩

/-- C8 witness: render on destroyed handle 2 in a registry that also
holds the live handle 1. -/
theorem C8_witness :
    valid ⟨3, [1, 2], [2], [(1, true)], "x"⟩ 2 = false ∧
    (((Op.render).nullOut = false →
      (step 2 Op.render HostOutcome.ok ⟨80, 24⟩ PollOutcome.timeout
        ⟨3, [1, 2], [2], [(1, true)], "x"⟩).status = Status.invalidHandle ∧
      (step 2 Op.render HostOutcome.ok ⟨80, 24⟩ PollOutcome.timeout
        ⟨3, [1, 2], [2], [(1, true)], "x"⟩).state.issued = [1, 2] ∧
      (step 2 Op.render HostOutcome.ok ⟨80, 24⟩ PollOutcome.timeout
        ⟨3, [1, 2], [2], [(1, true)], "x"⟩).state.destroyed = [2] ∧
      (step 2 Op.render HostOutcome.ok ⟨80, 24⟩ PollOutcome.timeout
        ⟨3, [1, 2], [2], [(1, true)], "x"⟩).state.nextId = 3 ∧
      (step 2 Op.render HostOutcome.ok ⟨80, 24⟩ PollOutcome.timeout
        ⟨3, [1, 2], [2], [(1, true)], "x"⟩).state.sync = [(1, true)] ∧
      (step 2 Op.render HostOutcome.ok ⟨80, 24⟩ PollOutcome.timeout
        ⟨3, [1, 2], [2], [(1, true)], "x"⟩).output = none) ∧
    ((Op.render).nullOut = true →
      (step 2 Op.render HostOutcome.ok ⟨80, 24⟩ PollOutcome.timeout
        ⟨3, [1, 2], [2], [(1, true)], "x"⟩).status =
          Status.invalidArgument ∧
      (step 2 Op.render HostOutcome.ok ⟨80, 24⟩ PollOutcome.timeout
        ⟨3, [1, 2], [2], [(1, true)], "x"⟩).output = none)) :=
  ⟨by decide,
   C8_handle_validation_short_circuit ⟨3, [1, 2], [2], [(1, true)], "x"⟩ 2
     Op.render HostOutcome.ok ⟨80, 24⟩ PollOutcome.timeout (by decide)⟩

/-- C9 counterexample: the claim says any non-OK status is accompanied by
an Error Channel diagnostic; but a poll on the valid handle 1 that times
out returns the non-OK Timeout status with the error channel still
empty. -/
theorem C9_counterexample :
    valid ⟨2, [1], [], [(1, true)], ""⟩ 1 = true ∧
    (step 1 (Op.pollEvent 5 false) HostOutcome.ok ⟨80, 24⟩
      PollOutcome.timeout ⟨2, [1], [], [(1, true)], ""⟩).status =
        Status.timeout ∧
    (step 1 (Op.pollEvent 5 false) HostOutcome.ok ⟨80, 24⟩
      PollOutcome.timeout ⟨2, [1], [], [(1, true)], ""⟩).status ≠
        Status.ok ∧
    termisu_last_error_length
      (step 1 (Op.pollEvent 5 false) HostOutcome.ok ⟨80, 24⟩
        PollOutcome.timeout ⟨2, [1], [], [(1, true)], ""⟩).state = 0 := by
  decide

/-- C9 amended: every handle-taking session operation returns a status
from the fixed six-value enumeration whose stable codes are OK=0,
Timeout=1, Invalid-Argument=2, Invalid-Handle=3, Rejected=4, Error=5, and
every non-OK status other than Timeout is accompanied by an Error Channel
diagnostic. -/
theorem C9_uniform_status_contract
    (st : FFIState) (h : Nat) (op : Op) (host : HostOutcome)
    (hsz : SizeRec) (hpoll : PollOutcome)
    (hg1 : host.goodMsg) (hg2 : hpoll.goodMsg) :
    (step h op host hsz hpoll st).status ∈
      [Status.ok, Status.timeout, Status.invalidArgument,
       Status.invalidHandle, Status.rejected, Status.error] ∧
    Status.code Status.ok = 0 ∧
    Status.code Status.timeout = 1 ∧
    Status.code Status.invalidArgument = 2 ∧
    Status.code Status.invalidHandle = 3 ∧
    Status.code Status.rejected = 4 ∧
    Status.code Status.error = 5 ∧
    ((step h op host hsz hpoll st).status ≠ Status.ok →
      (step h op host hsz hpoll st).status ≠ Status.timeout →
      (step h op host hsz hpoll st).state.lastError ≠ "") := by
  refine ⟨?_, rfl, rfl, rfl, rfl, rfl, rfl,
    step_fail_msg_ne h op host hsz hpoll st hg1 hg2⟩
  generalize (step h op host hsz hpoll st).status = s
  cases s <;> simp

/-- C9 witness: hide_cursor on the never-issued handle 5 with a host that
would reject. -/
theorem C9_witness :
    HostOutcome.goodMsg (HostOutcome.rejected "nope") ∧
    PollOutcome.goodMsg PollOutcome.timeout ∧
    ((step 5 Op.hideCursor (HostOutcome.rejected "nope") ⟨80, 24⟩
      PollOutcome.timeout initState).status ∈
      [Status.ok, Status.timeout, Status.invalidArgument,
       Status.invalidHandle, Status.rejected, Status.error] ∧
    Status.code Status.ok = 0 ∧
    Status.code Status.timeout = 1 ∧
    Status.code Status.invalidArgument = 2 ∧
    Status.code Status.invalidHandle = 3 ∧
    Status.code Status.rejected = 4 ∧
    Status.code Status.error = 5 ∧
    ((step 5 Op.hideCursor (HostOutcome.rejected "nope") ⟨80, 24⟩
        PollOutcome.timeout initState).status ≠ Status.ok →
      (step 5 Op.hideCursor (HostOutcome.rejected "nope") ⟨80, 24⟩
        PollOutcome.timeout initState).status ≠ Status.timeout →
      (step 5 Op.hideCursor (HostOutcome.rejected "nope") ⟨80, 24⟩
        PollOutcome.timeout initState).state.lastError ≠ "")) :=
  ⟨by decide, by decide,
   C9_uniform_status_contract initState 5 Op.hideCursor
     (HostOutcome.rejected "nope") ⟨80, 24⟩ PollOutcome.timeout
     (by decide) (by decide)⟩

/-- C10: termisu_abi_version() returns exactly 1, the value of
TERMISU_FFI_VERSION declared in the public header. -/
theorem C10_abi_version_is_one :
    termisu_abi_version = 1 ∧ termisu_abi_version = TERMISU_FFI_VERSION :=
  ⟨rfl, rfl⟩

end Termisu
